import Mathlib

/-!
Shallow embedding of the `tokenize.js` stream engine (`src/tokenizer.ts`)
and position-anchored error (`src/error.ts`).

JavaScript values of the element type `α` are modelled together with a
truthiness function `truthy : α → Bool`, since the engine's loops test
elements with JavaScript truthiness (`while ((this._val = this.vals.shift()))`,
`if (!next) throw`, `while (val && ...)`, `if (elm)`).  Concrete
instantiations use `Int` with `truthyInt v = (v != 0)`, matching JavaScript
numbers (0 is falsy).

Buffer-mutating operations are modelled by explicit state passing: an
operation takes the value list (or a full `TokState`) and returns the result
together with the mutated list/state.  A thrown string becomes
`Except.error`; the buffer component next to it records the mutations that
happened before the throw, which persist in JavaScript.
-/

namespace Tokenize

/-- `OrphanBehavior` from `src/types.ts`. -/
inductive OrphanBehavior
  | CONSUME_ORPHAN
  | DISCARD_ORPHAN
  | UNSHIFT_ORPHAN
  deriving DecidableEq, Repr

/-- JavaScript truthiness for numbers: `0` is falsy, everything else truthy
(`NaN` has no counterpart in `Int`). -/
def truthyInt (v : Int) : Bool := v != 0

/-- The default message of `Tokenizer.next`:
`throw errMsg ?? 'Unexpected end of input.'`. -/
def defaultEOI : String := "Unexpected end of input."

/-- The loop of `Tokenizer.next` (src/tokenizer.ts lines 239-244):
`count -= 1; const next = this.vals.shift(); if (!next) throw errMsg ?? ...;
if (count === 0) return next;` repeated.  Returns the result together with
the buffer as mutated up to the return or throw. -/
def nextGo {α : Type} (truthy : α → Bool) (msg : String) :
    Int → List α → Except String α × List α
  | _, [] => (.error msg, [])
  | count, x :: rest =>
    if truthy x = false then (.error msg, rest)
    else if count - 1 = 0 then (.ok x, rest)
    else nextGo truthy msg (count - 1) rest

/-- `Tokenizer.next(count, errMsg?)`: the thrown message is
`errMsg ?? 'Unexpected end of input.'`. -/
def nextN {α : Type} (truthy : α → Bool) (count : Int) (errMsg : Option String)
    (vals : List α) : Except String α × List α :=
  nextGo truthy (errMsg.getD defaultEOI) count vals

/-- `Tokenizer.next(errMsg?)`: the no-count overload uses `count = 1`. -/
def next1 {α : Type} (truthy : α → Bool) (errMsg : Option String)
    (vals : List α) : Except String α × List α :=
  nextN truthy 1 errMsg vals

/-- The drive loop of `Tokenizer.tokenize` (src/tokenizer.ts lines 56-61):
`while ((this._val = this.vals.shift())) this.onNextToken(this._val);`.
The hook is modelled as an observer; the first component is the trace of
elements the hook was invoked on, in order, the second the remaining
buffer when the loop exits. -/
def tokenizeGo {α : Type} (truthy : α → Bool) : List α → List α × List α
  | [] => ([], [])
  | x :: rest =>
    if truthy x then
      let r := tokenizeGo truthy rest
      (x :: r.1, r.2)
    else ([], rest)

/-- The shared `while`/`until` loop body of `Tokenizer.consume`
(src/tokenizer.ts lines 136-149): `while (val && cont(val)) { elms.push(val);
val = this.vals.shift(); }` with `cont = whle` for `while` and
`cont = not ∘ until` for `until`.  Input: the current lookahead `val` and the
buffer; output: the pushed elements, the final value of `val` (the argument
later passed to `_handleOrphan`) and the remaining buffer. -/
def consumeGo {α : Type} (truthy : α → Bool) (cont : α → Bool) :
    Option α → List α → List α × Option α × List α
  | none, vals => ([], none, vals)
  | some v, vals =>
    if truthy v && cont v then
      match vals with
      | [] => ([v], none, [])
      | x :: rest =>
        let r := consumeGo truthy cont (some x) rest
        (v :: r.1, r.2)
    else ([], some v, vals)

/-- `Tokenizer._handleOrphan` (src/tokenizer.ts lines 171-189).  `if (elm)`
is a truthiness test, so an absent or falsy `elm` skips the switch.  Returns
the element list together with the buffer (which `UNSHIFT_ORPHAN` mutates). -/
def handleOrphan {α : Type} (truthy : α → Bool) (elms : List α)
    (elm : Option α) (b : OrphanBehavior) (vals : List α) :
    List α × List α :=
  match elm with
  | none => (elms, vals)
  | some e =>
    if truthy e then
      match b with
      | .CONSUME_ORPHAN => (elms ++ [e], vals)
      | .DISCARD_ORPHAN => (elms, vals)
      | .UNSHIFT_ORPHAN => (elms, e :: vals)
    else (elms, vals)

/-- The seeding of `elms` in `Tokenizer.consume`:
`const elms: T[] = lastToken ? [lastToken] : [];` — a truthiness test, so a
falsy seed is dropped. -/
def seedElms {α : Type} (truthy : α → Bool) : Option α → List α
  | none => []
  | some s => if truthy s then [s] else []

/-- `Tokenizer.consume(...).until(p)` as one function.  `consume` always
fetches the lookahead: `let val: T | undefined; val ??= this.next();` — `val`
is freshly declared and always `undefined` there, so `this.next()` runs
whether or not a seed was supplied.  A throw from that fetch propagates. -/
def consumeUntil {α : Type} (truthy : α → Bool) (seed : Option α)
    (b : OrphanBehavior) (p : α → Bool) (vals : List α) :
    Except String (List α) × List α :=
  match next1 truthy none vals with
  | (.error m, rest) => (.error m, rest)
  | (.ok v, rest) =>
    let r := consumeGo truthy (fun x => ! p x) (some v) rest
    let h := handleOrphan truthy (seedElms truthy seed ++ r.1) r.2.1 b r.2.2
    (.ok h.1, h.2)

/-- `Tokenizer.consume(...).while(p)` as one function. -/
def consumeWhile {α : Type} (truthy : α → Bool) (seed : Option α)
    (b : OrphanBehavior) (p : α → Bool) (vals : List α) :
    Except String (List α) × List α :=
  match next1 truthy none vals with
  | (.error m, rest) => (.error m, rest)
  | (.ok v, rest) =>
    let r := consumeGo truthy p (some v) rest
    let h := handleOrphan truthy (seedElms truthy seed ++ r.1) r.2.1 b r.2.2
    (.ok h.1, h.2)

/-- The consumption loop followed by orphan resolution, without the seed
prefix: the composition of `consumeGo` and `_handleOrphan` shared by `while`
and `until`.  Returns the accumulator and the resulting buffer. -/
def consumeApply {α : Type} (truthy : α → Bool) (cont : α → Bool)
    (b : OrphanBehavior) (val : Option α) (vals : List α) :
    List α × List α :=
  let r := consumeGo truthy cont val vals
  handleOrphan truthy r.1 r.2.1 b r.2.2

/-- The observable state of a `Tokenizer` instance: the input buffer `vals`,
the produced token list `tokens`, and the `length` recorded at construction. -/
structure TokState (α β : Type) where
  vals : List α
  tokens : List β
  length : Nat
  deriving DecidableEq, Repr

/-- The constructor: `this.length = vals.length`, `tokens = []`. -/
def mkTokState {α β : Type} (vals : List α) : TokState α β :=
  { vals := vals, tokens := [], length := vals.length }

/-- `get position()` (src/tokenizer.ts lines 45-47):
`return this.length - this.tokens.length;`. -/
def position {α β : Type} (st : TokState α β) : Int :=
  (st.length : Int) - (st.tokens.length : Int)

/-- `Tokenizer.next` lifted to the instance state: only `vals` is mutated. -/
def nextS {α β : Type} (truthy : α → Bool) (count : Int)
    (errMsg : Option String) (st : TokState α β) :
    Except String α × TokState α β :=
  let r := nextN truthy count errMsg st.vals
  (r.1, { st with vals := r.2 })

/-- `consume(...).until(p)` lifted to the instance state. -/
def consumeUntilS {α β : Type} (truthy : α → Bool) (seed : Option α)
    (b : OrphanBehavior) (p : α → Bool) (st : TokState α β) :
    Except String (List α) × TokState α β :=
  let r := consumeUntil truthy seed b p st.vals
  (r.1, { st with vals := r.2 })

/-- `consume(...).while(p)` lifted to the instance state. -/
def consumeWhileS {α β : Type} (truthy : α → Bool) (seed : Option α)
    (b : OrphanBehavior) (p : α → Bool) (st : TokState α β) :
    Except String (List α) × TokState α β :=
  let r := consumeWhile truthy seed b p st.vals
  (r.1, { st with vals := r.2 })

/-- `Tokenizer.tokenize` lifted to the instance state; first component is the
trace of hook invocations, second the returned instance (`return this`). -/
def tokenizeS {α β : Type} (truthy : α → Bool) (st : TokState α β) :
    List α × TokState α β :=
  let r := tokenizeGo truthy st.vals
  (r.1, { st with vals := r.2 })

/-! ### Position-anchored error (`src/error.ts`)

Strings are modelled as `List Char` so that the JavaScript index arithmetic
(`lastIndexOf` returning `-1`, `substring` clamping negative bounds to `0`)
can be reproduced exactly.  The `colors` module is not under `src/`; per the
spec it is an optional, purely cosmetic decoration ("no semantic effect"),
and we model the default configuration in which no color functions are
registered (`colors` falsy), so the caret marker is the plain `'^'`. -/

/-- A JavaScript string as a list of UTF-16-ish characters. -/
abbrev JStr := List Char

/-- The ASCII fragment of the JavaScript `\s` character class, which is all
the inputs in this development use (`/\s|\t/.test(char)` in the caret builder,
`String.prototype.trim`). -/
def jsWhitespace (c : Char) : Bool :=
  c = ' ' || c = '\t' || c = '\n' || c = '\r' || c = '\x0b' || c = '\x0c'

/-- `String.prototype.substring(start, stop)`: clamps both indices to
`[0, length]` and swaps them if `start > stop`. -/
def jsSubstring (s : JStr) (start stop : Int) : JStr :=
  let len : Int := s.length
  let a := max 0 (min start len)
  let b := max 0 (min stop len)
  let lo := min a b
  let hi := max a b
  (s.drop lo.toNat).take (hi - lo).toNat

/-- `String.prototype.lastIndexOf('\n')`: index of the last line break, or
`-1` when there is none. -/
def lastNl (s : JStr) : Int :=
  match s.reverse.findIdx? (fun c => c == '\n') with
  | some i => (s.length : Int) - 1 - i
  | none => -1

/-- `String.prototype.indexOf('\n')`: index of the first line break, or `-1`
when there is none. -/
def firstNl (s : JStr) : Int :=
  match s.findIdx? (fun c => c == '\n') with
  | some i => (i : Int)
  | none => -1

/-- `s.split(/\n/g).length` equals (number of line breaks in `s`) + 1. -/
def splitNlCount (s : JStr) : Nat :=
  (s.filter (fun c => c == '\n')).length + 1

/-- `String.prototype.trim` restricted to the ASCII whitespace fragment. -/
def jsTrim (s : JStr) : JStr :=
  ((s.dropWhile jsWhitespace).reverse.dropWhile jsWhitespace).reverse

/-- The values computed by `TokenizerError._highlightErr`.  `row` and
`column` are stringified numbers in the source (template literals); we keep
their numeric values.  `faultLine` is `errLnStart + errLnEnd`, the single
source line containing the offset, recorded for stating caret alignment. -/
structure Highlight where
  row : Nat
  column : Nat
  caret : JStr
  faultLine : JStr
  prettyPrinted : JStr
  deriving DecidableEq, Repr

/-- `TokenizerError._highlightErr(raw, position)` (src/error.ts lines
83-122), with `colors` not registered. -/
def highlightErr (raw : JStr) (position : Nat) : Highlight :=
  let before := raw.take position
  let after := raw.drop position
  let beforeN := lastNl before
  let afterN := firstNl after
  let errLnStart := jsSubstring before (beforeN + 1) before.length
  let errLnEnd := jsSubstring after 0 afterN
  let before2 := jsSubstring before 0 beforeN
  let after2 := jsSubstring after (afterN + 1) after.length
  let caret :=
    (errLnStart.map (fun c => if jsWhitespace c then c else ' ')) ++ ['^']
  let pretty1 :=
    before2 ++ ['\n'] ++ errLnStart ++ errLnEnd ++ ['\n'] ++ caret
  let pretty :=
    if 0 < (jsTrim after2).length then pretty1 ++ ['\n'] ++ after2
    else pretty1
  { row := splitNlCount before2
    column := errLnStart.length
    caret := caret
    faultLine := errLnStart ++ errLnEnd
    prettyPrinted := pretty }

/-- `TokenizerError`'s own fields (src/error.ts lines 20-28).  The inherited
`SyntaxError` machinery carries no further observable state. -/
structure TokenizerError where
  message : String
  raw : String
  position : Int
  path : Option String
  deriving DecidableEq, Repr

/-- `TokenizerError.fork(message, position?)` (src/error.ts lines 131-138):
`new TokenizerError(message, this.raw, position ?? this.position, this.path)`. -/
def TokenizerError.fork (e : TokenizerError) (message : String)
    (position : Option Int) : TokenizerError :=
  { message := message
    raw := e.raw
    position := position.getD e.position
    path := e.path }

/-! ### Helper lemmas -/

/-- Replacing only the buffer of an engine state leaves `position` unchanged,
since `position` reads only `length` and `tokens`. -/
theorem position_set_vals {α β : Type} (st : TokState α β) (vs : List α) :
    position { st with vals := vs } = position st := rfl

/-- The first component of `_handleOrphan`'s result (the returned element
list) does not depend on the buffer argument. -/
theorem handleOrphan_fst {α : Type} (truthy : α → Bool) (elms : List α)
    (elm : Option α) (b : OrphanBehavior) (vs vs2 : List α) :
    (handleOrphan truthy elms elm b vs).1 =
    (handleOrphan truthy elms elm b vs2).1 := by
  cases elm with
  | none => rfl
  | some x =>
    by_cases hx : truthy x = true
    · cases b <;> simp [handleOrphan, hx]
    · simp [handleOrphan, hx]

/-- The consumption loop stops at once on a falsy lookahead, treating it as
its orphan. -/
theorem consumeGo_falsy {α : Type} (truthy : α → Bool) (cont : α → Bool)
    (x : α) (vs : List α) (hx : truthy x = false) :
    consumeGo truthy cont (some x) vs = ([], some x, vs) := by
  cases vs <;> simp [consumeGo, hx]

/-- On a buffer of truthy elements the drive loop invokes the hook on every
element in order and exhausts the buffer. -/
theorem tokenizeGo_all_truthy {α : Type} (truthy : α → Bool) :
    ∀ vals : List α, (∀ x ∈ vals, truthy x = true) →
      tokenizeGo truthy vals = (vals, [])
  | [], _ => rfl
  | x :: rest, hAll => by
    have hx : truthy x = true := hAll x (List.mem_cons_self x rest)
    have ih := tokenizeGo_all_truthy truthy rest
      (fun y hy => hAll y (List.mem_cons_of_mem x hy))
    simp [tokenizeGo, hx, ih]

/-- On a buffer of truthy elements shorter than `count`, the `next` loop
drains the whole buffer and then throws. -/
theorem nextGo_eoi {α : Type} (truthy : α → Bool) (msg : String) :
    ∀ (vals : List α) (count : Int), (∀ x ∈ vals, truthy x = true) →
      (vals.length : Int) < count →
      nextGo truthy msg count vals = (.error msg, [])
  | [], _, _, _ => rfl
  | x :: rest, count, hAll, hLt => by
    have hx : truthy x = true := hAll x (List.mem_cons_self x rest)
    have hlen : ((x :: rest).length : Int) = (rest.length : Int) + 1 := by
      simp
    have hne : ¬ (count - 1 = 0) := by omega
    have hlt2 : (rest.length : Int) < count - 1 := by omega
    have ih := nextGo_eoi truthy msg rest (count - 1)
      (fun y hy => hAll y (List.mem_cons_of_mem x hy)) hlt2
    simp [nextGo, hx, hne, ih]

/-! ### Claims -/

/-- C1, counterexample: on the engine built over `[1, 2]`, one `take_next`
removes one element, so the claimed value `initial_length -
current_remaining_length` is `1`; the code's `position` (`length -
tokens.length`) still returns `2`, because `take_next` does not touch
`tokens`. -/
theorem c1_counterexample :
    position ((nextS truthyInt 1 none
        (mkTokState [1, 2] : TokState Int Unit)).2) = 2 ∧
    ((mkTokState [1, 2] : TokState Int Unit).length : Int) -
      (((nextS truthyInt 1 none
        (mkTokState [1, 2] : TokState Int Unit)).2).vals.length : Int) = 1 ∧
    (2 : Int) ≠ 1 := by
  refine ⟨by decide, by decide, by decide⟩

/-- C1, amended: `position` returns `length - tokens.length`, the initial
length minus the count of tokens produced; since `take_next` and `consume`
(under every orphan policy) never modify `tokens` or `length`, `position` is
unchanged — hence non-decreasing — across every such sequence, but it does
not equal the count of elements consumed from the buffer. -/
theorem c1_position_invariant (α β : Type) (truthy : α → Bool) (count : Int)
    (errMsg : Option String) (seed : Option α) (b : OrphanBehavior)
    (p : α → Bool) (st : TokState α β) :
    position st = (st.length : Int) - (st.tokens.length : Int) ∧
    position ((nextS truthy count errMsg st).2) = position st ∧
    position ((consumeUntilS truthy seed b p st).2) = position st ∧
    position ((consumeWhileS truthy seed b p st).2) = position st :=
  ⟨rfl, rfl, rfl, rfl⟩

/-- C2, counterexample: on the buffer `[0, 1]` the drive loop shifts the
falsy element `0`, invokes the hook zero times (not once per removed
element), and terminates with the non-exhausted buffer `[1]`. -/
theorem c2_counterexample :
    tokenizeGo truthyInt ([0, 1] : List Int) = ([], [1]) ∧
    ([1] : List Int) ≠ [] ∧
    ([] : List Int) ≠ [0] := by
  refine ⟨by decide, by decide, by decide⟩

/-- C2, amended: for every buffer all of whose elements are truthy, the drive
loop invokes the hook exactly once per removed element, in strict input
order, terminates exactly when the buffer is exhausted, and returns the same
engine instance (with `tokens` and `length` untouched). -/
theorem c2_tokenize_drives_all (α β : Type) (truthy : α → Bool)
    (st : TokState α β) (hAll : ∀ x ∈ st.vals, truthy x = true) :
    tokenizeS truthy st = (st.vals, { st with vals := [] }) := by
  unfold tokenizeS
  rw [tokenizeGo_all_truthy truthy st.vals hAll]

/-- C2, witness at the all-truthy buffer `[1, 2, 3]`. -/
theorem c2_witness :
    (∀ x ∈ (mkTokState [1, 2, 3] : TokState Int Unit).vals,
      truthyInt x = true) ∧
    tokenizeS truthyInt (mkTokState [1, 2, 3] : TokState Int Unit) =
      ([1, 2, 3],
        { (mkTokState [1, 2, 3] : TokState Int Unit) with vals := [] }) :=
  ⟨by decide,
    c2_tokenize_drives_all Int Unit truthyInt
      (mkTokState [1, 2, 3]) (by decide)⟩

/-- C3, counterexample: `take_next(3)` on `[0, 5]` (fewer than 3 elements)
throws after removing only `0` — the element `5` that was present before
exhaustion is left in the buffer — and the default message is
`"Unexpected end of input."`, not `"unexpected end of input"`. -/
theorem c3_counterexample :
    nextN truthyInt 3 none ([0, 5] : List Int) =
      (.error "Unexpected end of input.", [5]) ∧
    "Unexpected end of input." ≠ "unexpected end of input" ∧
    ([5] : List Int) ≠ [] := by
  refine ⟨rfl, by decide, by decide⟩

/-- C3, amended: for every buffer of truthy elements with fewer than `count`
remaining, `take_next(count)` fails with the caller-supplied message when one
is given and the default `"Unexpected end of input."` otherwise, having
removed every element that was present before exhaustion (a falsy element
triggers the same failure early, leaving later elements in place). -/
theorem c3_next_eoi (α : Type) (truthy : α → Bool) (count : Int)
    (errMsg : Option String) (vals : List α)
    (hAll : ∀ x ∈ vals, truthy x = true)
    (hLt : (vals.length : Int) < count) :
    nextN truthy count errMsg vals =
      (.error (errMsg.getD defaultEOI), []) :=
  nextGo_eoi truthy (errMsg.getD defaultEOI) vals count hAll hLt

/-- C3, witness: `take_next(3)` with message `"oops"` on the truthy buffer
`[1, 2]`. -/
theorem c3_witness :
    (∀ x ∈ ([1, 2] : List Int), truthyInt x = true) ∧
    (([1, 2] : List Int).length : Int) < 3 ∧
    nextN truthyInt 3 (some "oops") ([1, 2] : List Int) =
      (.error "oops", []) :=
  ⟨by decide, by decide,
    c3_next_eoi Int truthyInt 3 (some "oops") [1, 2] (by decide) (by decide)⟩

/-- C4, counterexample: `consume` with the seed `1` on an empty buffer fails
with `EndOfInput`, because `val ??= this.next()` runs unconditionally; the
claim said a seeded `consume` on an empty buffer does not fail. -/
theorem c4_counterexample :
    consumeUntil truthyInt (some 1) .UNSHIFT_ORPHAN
        (fun v => v == 7) ([] : List Int) =
      (.error "Unexpected end of input.", []) := rfl

/-- C4, amended: `consume` fetches its lookahead via `take_next()`
unconditionally, so on an empty buffer both `while` and `until` fail with
`EndOfInput` whether or not a seed was supplied. -/
theorem c4_consume_empty_fails (α : Type) (truthy : α → Bool)
    (seed : Option α) (b : OrphanBehavior) (p : α → Bool) :
    consumeUntil truthy seed b p ([] : List α) = (.error defaultEOI, []) ∧
    consumeWhile truthy seed b p ([] : List α) = (.error defaultEOI, []) :=
  ⟨rfl, rfl⟩

/-- C5: when the `until` loop stops on a truthy orphan `o`, the three orphan
policies yield: `Discard` the accumulator `seed ++ elms` with buffer `rem`;
`Consume` the same accumulator with `o` appended, same buffer; `PutBack` the
same accumulator as `Discard`, with the buffer `o :: rem`. -/
theorem c5_orphan_policies (α : Type) (truthy : α → Bool) (seed : Option α)
    (p : α → Bool) (vals rest elms rem : List α) (v o : α)
    (h1 : next1 truthy none vals = (.ok v, rest))
    (h2 : consumeGo truthy (fun x => ! p x) (some v) rest =
      (elms, some o, rem))
    (h3 : truthy o = true) :
    consumeUntil truthy seed .DISCARD_ORPHAN p vals =
      (.ok (seedElms truthy seed ++ elms), rem) ∧
    consumeUntil truthy seed .CONSUME_ORPHAN p vals =
      (.ok ((seedElms truthy seed ++ elms) ++ [o]), rem) ∧
    consumeUntil truthy seed .UNSHIFT_ORPHAN p vals =
      (.ok (seedElms truthy seed ++ elms), o :: rem) := by
  unfold consumeUntil
  rw [h1]
  simp [h2, handleOrphan, h3]

/-- C5, witness: input `[1, 2, 7, 3]`, predicate "element equals 7", seed
`9`: the loop collects `[1, 2]`, stops on the orphan `7`, and the three
policies return `[9, 1, 2]` / `[9, 1, 2, 7]` / `[9, 1, 2]` with buffers
`[3]` / `[3]` / `[7, 3]`. -/
theorem c5_witness :
    consumeUntil truthyInt (some 9) .DISCARD_ORPHAN
        (fun v => v == 7) ([1, 2, 7, 3] : List Int) = (.ok [9, 1, 2], [3]) ∧
    consumeUntil truthyInt (some 9) .CONSUME_ORPHAN
        (fun v => v == 7) ([1, 2, 7, 3] : List Int) =
      (.ok [9, 1, 2, 7], [3]) ∧
    consumeUntil truthyInt (some 9) .UNSHIFT_ORPHAN
        (fun v => v == 7) ([1, 2, 7, 3] : List Int) =
      (.ok [9, 1, 2], [7, 3]) :=
  c5_orphan_policies Int truthyInt (some 9) (fun v => v == 7)
    [1, 2, 7, 3] [2, 7, 3] [1, 2] [3] 1 7 rfl rfl (by decide)

/-- C6: after an `until` consumption that stops on a truthy orphan `o` under
`UNSHIFT_ORPHAN`, an immediately following `take_next()` returns that same
orphan, and `position` after the put-back/re-take pair equals `position`
before the `consume`. -/
theorem c6_putback_retake (α β : Type) (truthy : α → Bool) (seed : Option α)
    (p : α → Bool) (st : TokState α β) (rest elms rem : List α) (v o : α)
    (h1 : next1 truthy none st.vals = (.ok v, rest))
    (h2 : consumeGo truthy (fun x => ! p x) (some v) rest =
      (elms, some o, rem))
    (h3 : truthy o = true) :
    (nextS truthy 1 none
      ((consumeUntilS truthy seed .UNSHIFT_ORPHAN p st).2)).1 = .ok o ∧
    position ((nextS truthy 1 none
      ((consumeUntilS truthy seed .UNSHIFT_ORPHAN p st).2)).2) =
      position st := by
  have hbuf : ((consumeUntilS truthy seed .UNSHIFT_ORPHAN p st).2).vals =
      o :: rem := by
    unfold consumeUntilS consumeUntil
    rw [h1]
    simp [h2, handleOrphan, h3]
  constructor
  · unfold nextS nextN nextGo
    rw [hbuf]
    simp [h3]
  · unfold nextS
    exact position_set_vals _ _

/-- C6, witness: the engine over `[1, 2, 7, 3]`, predicate "element equals
7": `PutBack` leaves `[7, 3]`, the re-take returns `7`, and `position` is
back to its value before the pair. -/
theorem c6_witness :
    (nextS truthyInt 1 none
      ((consumeUntilS truthyInt none .UNSHIFT_ORPHAN (fun v => v == 7)
        (mkTokState [1, 2, 7, 3] : TokState Int Unit)).2)).1 = .ok 7 ∧
    position ((nextS truthyInt 1 none
      ((consumeUntilS truthyInt none .UNSHIFT_ORPHAN (fun v => v == 7)
        (mkTokState [1, 2, 7, 3] : TokState Int Unit)).2)).2) =
      position (mkTokState [1, 2, 7, 3] : TokState Int Unit) :=
  c6_putback_retake Int Unit truthyInt none (fun v => v == 7)
    (mkTokState [1, 2, 7, 3]) [2, 7, 3] [1, 2] [3] 1 7
    rfl rfl (by decide)

/-- C7: at raw `"ab\ncd"` and offset 4 (the character `'d'`, on the second
line), the code reports row `1` — it counts the lines of the truncated
`before`, which drops the fault line and the break preceding it — while the
claimed formula `1 + line breaks in the pre-truncation before` gives `2`,
the actual 1-based line of the fault; the column does match the claim. -/
theorem c7_row_bug :
    (highlightErr ("ab\ncd".toList) 4).row = 1 ∧
    1 + (("ab\ncd".toList.take 4).filter (fun c => c == '\n')).length = 2 ∧
    (1 : Nat) ≠ 2 ∧
    (highlightErr ("ab\ncd".toList) 4).column = 1 := by
  refine ⟨by decide, by decide, by decide, by decide⟩

/-- C8, counterexample: at raw `"ab\tcd\nef"` the character `'c'` has index
3, not 4; at offset 4 the caret line is `"  \t ^"`, whose caret (the last
character, at index 4) sits under `'d'`, not under `'c'`. -/
theorem c8_counterexample :
    (highlightErr ("ab\tcd\nef".toList) 4).caret =
      [' ', ' ', '\t', ' ', '^'] ∧
    (highlightErr ("ab\tcd\nef".toList) 4).faultLine.get?
      ((highlightErr ("ab\tcd\nef".toList) 4).caret.length - 1) =
        some 'd' ∧
    'd' ≠ 'c' := by
  refine ⟨by decide, by decide, by decide⟩

/-- C8, amended: with offset 3 — the actual index of `'c'` in
`"ab\tcd\nef"` — the caret line is `"  \t^"`: the source's literal tab is
kept at its original column (index 2), the other, non-whitespace characters
before the offset become plain spaces, and the single appended caret (index
3) sits exactly under `'c'`. -/
theorem c8_caret_alignment :
    (highlightErr ("ab\tcd\nef".toList) 3).caret = [' ', ' ', '\t', '^'] ∧
    (highlightErr ("ab\tcd\nef".toList) 3).faultLine = "ab\tcd".toList ∧
    (highlightErr ("ab\tcd\nef".toList) 3).faultLine.get? 3 = some 'c' := by
  refine ⟨by decide, by decide, by decide⟩

/-- C9: `fork` builds a fresh error value with the given message, the given
position when supplied and the original's position otherwise, and the
original's `raw` and `path`; the original is untouched, and since the two
are independent values, updating fields of one never affects the other. -/
theorem c9_fork (e : TokenizerError) (m m2 : String) (p : Option Int)
    (q q2 : Int) :
    e.fork m p =
      { message := m, raw := e.raw, position := p.getD e.position,
        path := e.path } ∧
    (e.fork m (some q)).position = q ∧
    (e.fork m none).position = e.position ∧
    { e.fork m p with message := m2, position := q2 }.raw = e.raw ∧
    { e.fork m p with message := m2, position := q2 }.path = e.path :=
  ⟨rfl, rfl, rfl, rfl, rfl⟩

/-- C10: a falsy front element is indistinguishable from end of input:
`next()` with no count throws the default `"Unexpected end of input."`
instead of returning it, the drive loop terminates without invoking the hook
on it (though it was removed), and the `while`/`until` consumption loop
produces the same accumulator as on an exhausted buffer, under every orphan
policy. -/
theorem c10_falsy_is_eoi (α : Type) (truthy : α → Bool) (e : α)
    (rest : List α) (hf : truthy e = false) :
    next1 truthy none (e :: rest) = (.error defaultEOI, rest) ∧
    tokenizeGo truthy (e :: rest) = ([], rest) ∧
    (∀ (cont : α → Bool) (b : OrphanBehavior) (v : α),
      (consumeApply truthy cont b (some v) (e :: rest)).1 =
      (consumeApply truthy cont b (some v) []).1) := by
  refine ⟨?_, ?_, ?_⟩
  · simp [next1, nextN, nextGo, hf]
  · simp [tokenizeGo, hf]
  · intro cont b v
    have hinner := consumeGo_falsy truthy cont e rest hf
    by_cases h : (truthy v && cont v) = true
    · simp [consumeApply, consumeGo, h, hinner, handleOrphan, hf]
    · simp [consumeApply, consumeGo, h]
      exact handleOrphan_fst truthy [] (some v) b (e :: rest) []

/-- C10, witness at the buffer `[0, 5]` whose front element `0` is falsy. -/
theorem c10_witness :
    truthyInt 0 = false ∧
    next1 truthyInt none ([0, 5] : List Int) = (.error defaultEOI, [5]) ∧
    tokenizeGo truthyInt ([0, 5] : List Int) = ([], [5]) ∧
    (consumeApply truthyInt (fun v => decide (v < 3)) .UNSHIFT_ORPHAN
        (some 1) ([0, 5] : List Int)).1 =
      (consumeApply truthyInt (fun v => decide (v < 3)) .UNSHIFT_ORPHAN
        (some 1) ([] : List Int)).1 :=
  ⟨by decide,
    (c10_falsy_is_eoi Int truthyInt 0 [5] (by decide)).1,
    (c10_falsy_is_eoi Int truthyInt 0 [5] (by decide)).2.1,
    (c10_falsy_is_eoi Int truthyInt 0 [5] (by decide)).2.2
      (fun v => decide (v < 3)) .UNSHIFT_ORPHAN 1⟩

end Tokenize
